import Mathlib

/-!
Verification of the spaced-repetition core of the Learnfinity python backend and
study-plan scheduling core (`app/services/spaced_repetition.py`,
`app/services/intelligent_spaced_repetition.py`,
`app/services/study_plan_generator.py`).

Conventions of the shallow embedding:
* Python floats are modelled as `ℚ` where the code only does field
  arithmetic and comparisons, and as `ℝ` where `np.exp` is involved.
* `datetime` values are modelled at day granularity as `ℤ` (day numbers);
  `(a - b).days` becomes integer subtraction.  Clock times inside a day are
  modelled as minutes since midnight of day 0 (`ℤ`).
* The python `int(x)` (truncation towards zero) is `pyInt`; `//` on ints is
  `Int.fdiv` (floor division).
* Database/collaborator reads are passed in as explicit arguments; the
  functions below are the pure computations the python methods perform on
  the data they fetched.
-/

/-- Python `int(x)` applied to a float: truncation towards zero. -/
def pyInt (q : ℚ) : ℤ :=
  if 0 ≤ q then ⌊q⌋ else -⌊-q⌋

/-- Arithmetic mean as computed by `np.mean` on a list of floats. -/
def npMean (l : List ℚ) : ℚ :=
  l.sum / (l.length : ℚ)

/-! ## SpacedRepetitionEngine (app/services/spaced_repetition.py) -/

/-- The per-(user, topic) record stored in `spaced_repetition_data` as used by
`SpacedRepetitionEngine.calculate_next_review`.  Inside that method the
`interval_days` field is used as an index (level) into the `INTERVALS` table
and `forgetting_probability` is a float produced by the Ebbinghaus formula. -/
structure SRState where
  interval_days : ℕ
  repetitions : ℕ
  ease_factor : ℚ
  performance_history : List ℚ
  last_review : ℤ
  next_review : ℤ
  forgetting_probability : ℝ

/-- The `self.INTERVALS` lookup `INTERVALS.get` on the uppercased difficulty,
defaulting to the DEFAULT ladder.  The DEFAULT entry equals the MEDIUM entry,
so the final else branch covers both the DEFAULT key and any unknown key. -/
def INTERVALS (d : String) : List ℕ :=
  if d = "EASY" then [1, 6, 15, 30, 90, 180, 365]
  else if d = "MEDIUM" then [1, 3, 7, 14, 30, 60, 120]
  else if d = "HARD" then [1, 2, 4, 8, 16, 32, 64]
  else [1, 3, 7, 14, 30, 60, 120]

/-- `SpacedRepetitionEngine._calculate_interval_adjustment`.  The
`avg_score` argument is received but never read by the python body. -/
def calculate_interval_adjustment (current_score : ℚ) (avg_score : ℚ) : ℚ :=
  if current_score ≥ 9/10 then 3/2
  else if current_score ≥ 8/10 then 6/5
  else if current_score ≥ 6/10 then 1
  else if current_score ≥ 4/10 then 7/10
  else (5:ℚ)/10 + 0 * avg_score

/-- `SpacedRepetitionEngine._update_ease_factor`: SuperMemo-2 style ease
update on the normalized (0-1) performance. -/
def update_ease_factor (current_ease : ℚ) (performance : ℚ) : ℚ :=
  if performance ≥ 9/10 then current_ease + 1/10
  else if performance ≥ 8/10 then current_ease
  else if performance ≥ 6/10 then current_ease - 1/10
  else max (13/10) (current_ease - 2/10)

/-- `SpacedRepetitionEngine._calculate_forgetting_probability` (identical to
the public `calculate_forgetting_probability`): Ebbinghaus curve with
`time_ratio = days_since/interval` (or `1` when the interval is not
positive), `strength = interval * 0.5`, `retention = exp(-time_ratio/strength)`
(or `0` when the strength is not positive), returning
`max(0, 1 - retention)`.  `t` is `days_since_review`. -/
noncomputable def codeRetention (t : ℤ) (interval_days : ℤ) : ℝ :=
  let timeFrac : ℝ := if 0 < interval_days then (t : ℝ) / (interval_days : ℝ) else 1
  let strength : ℝ := (interval_days : ℝ) * (1/2)
  if 0 < strength then Real.exp (-(timeFrac / strength)) else 0

/-- The value `_calculate_forgetting_probability` returns:
`max(0, 1 - retention)`. -/
noncomputable def codeForgetting (t : ℤ) (interval_days : ℤ) : ℝ :=
  max 0 (1 - codeRetention t interval_days)

/-- The dict returned by `SpacedRepetitionEngine.calculate_next_review`. -/
structure ReviewResult where
  next_review : ℤ
  interval_days : ℤ
  repetitions : ℕ
  ease_factor : ℚ
  forgetting_probability : ℝ

/-- `SpacedRepetitionEngine.calculate_next_review`, as a pure function of the
current day `now`, the previously stored state (`none` when no row exists for
the user/topic pair), the raw 0-100 `performance_score` and the `difficulty`
tag.  Returns the response dict together with the state written back to the
store (the `upsert` payload). -/
noncomputable def calculate_next_review (now : ℤ) (prior : Option SRState)
    (performance_score : ℚ) (difficulty : String) : ReviewResult × SRState :=
  let sr0 : SRState := match prior with
    | none =>
        { interval_days := 1, repetitions := 0, ease_factor := 5/2,
          performance_history := [], last_review := now,
          next_review := now + 1, forgetting_probability := 1 }
    | some s => s
  let normalized_score : ℚ := performance_score / 100
  let reps : ℕ := sr0.repetitions + 1
  let history : List ℚ := sr0.performance_history ++ [performance_score]
  let avg_performance : ℚ := npMean history
  let interval_adjustment : ℚ :=
    calculate_interval_adjustment normalized_score avg_performance
  let intervals : List ℕ := INTERVALS difficulty.toUpper
  let current_interval : ℕ :=
    intervals.getD (min sr0.interval_days (intervals.length - 1)) 0
  let adjusted_interval : ℤ :=
    max 1 (pyInt ((current_interval : ℚ) * interval_adjustment))
  let new_level : ℕ :=
    if normalized_score ≥ 8/10 ∧ sr0.interval_days < intervals.length - 1
    then sr0.interval_days + 1 else sr0.interval_days
  let ease : ℚ := update_ease_factor sr0.ease_factor normalized_score
  let stored : SRState :=
    { interval_days := new_level, repetitions := reps, ease_factor := ease,
      performance_history := history, last_review := now,
      next_review := now + adjusted_interval,
      forgetting_probability := codeForgetting (now - now) adjusted_interval }
  ({ next_review := now + adjusted_interval,
     interval_days := adjusted_interval,
     repetitions := reps,
     ease_factor := ease,
     forgetting_probability := stored.forgetting_probability },
   stored)

/-! ## Topics due for review (`SpacedRepetitionEngine.get_topics_due_for_review`) -/

/-- Urgency tiers assigned by `get_topics_due_for_review`. -/
inductive Urgency where
  | critical
  | high
  | medium
  | low
deriving DecidableEq

/-- The sort rank of a tier: the python dict
`critical: 0, high: 1, medium: 2, low: 3`. -/
def tierRank : Urgency → ℕ
  | Urgency.critical => 0
  | Urgency.high => 1
  | Urgency.medium => 2
  | Urgency.low => 3

/-- A row of the `spaced_repetition_data` table as read by
`get_topics_due_for_review` (the `data.get(..., default)` fallbacks are
already applied, so all fields are present). -/
structure SRRow where
  topic_name : String
  next_review : ℤ
  last_review : ℤ
  forgetting_probability : ℚ
  repetitions : ℤ
  ease_factor : ℚ
  difficulty : String
  performance_history : List ℚ
deriving DecidableEq

/-- The per-topic urgency score
`forgetting_probability + time_overdue * 0.1` with
`time_overdue = (now - next_review).days`. -/
def urgency_score (now : ℤ) (row : SRRow) : ℚ :=
  row.forgetting_probability + ((now - row.next_review : ℤ) : ℚ) * (1/10)

/-- Tier assignment from the urgency score. -/
def urgencyOfScore (s : ℚ) : Urgency :=
  if s > 8/10 then Urgency.critical
  else if s > 6/10 then Urgency.high
  else if s > 4/10 then Urgency.medium
  else Urgency.low

/-- An element of the list returned by `get_topics_due_for_review`. -/
structure TopicDue where
  topic_name : String
  retention_probability : ℚ
  streak : ℤ
  last_review : ℤ
  next_review : ℤ
  urgency : Urgency
  time_overdue_days : ℤ
  ease_factor : ℚ
  difficulty : String
  last_performance : ℚ
deriving DecidableEq

/-- The dict built for one due row inside `get_topics_due_for_review`. -/
def dueEntry (now : ℤ) (row : SRRow) : TopicDue :=
  { topic_name := row.topic_name
    retention_probability := 1 - row.forgetting_probability
    streak := row.repetitions
    last_review := row.last_review
    next_review := row.next_review
    urgency := urgencyOfScore (urgency_score now row)
    time_overdue_days := max 0 (now - row.next_review)
    ease_factor := row.ease_factor
    difficulty := row.difficulty
    last_performance :=
      match row.performance_history.getLast? with
      | some p => p
      | none => 7/10 }

/-- The comparison used by `topics.sort(key=lambda x: (tier_rank, -retention))`:
the stable ascending python sort on the lexicographic key. -/
def dueLe (a b : TopicDue) : Bool :=
  decide (tierRank a.urgency < tierRank b.urgency ∨
    (tierRank a.urgency = tierRank b.urgency ∧
      -a.retention_probability ≤ -b.retention_probability))

/-- The due-topics pipeline of `get_topics_due_for_review` when stored rows
exist: filter rows whose `next_review` is not after `now`, build the entry
dicts, and sort by `(tier_rank, -retention_probability)`.  The python
`list.sort` is a stable ascending sort, modelled by the stable
`List.mergeSort`. -/
def due_topics (now : ℤ) (all_sr_data : List SRRow) : List TopicDue :=
  (((all_sr_data.filter (fun row => row.next_review ≤ now)).map
    (dueEntry now)).mergeSort dueLe)

/-- The fixed fallback subject list of `_create_sample_review_data`. -/
def sampleSubjects : List String :=
  ["Mathematics", "Physics", "Chemistry", "Biology", "History"]

/-- One synthesized row of `_create_sample_review_data` for index `i` and
topic `topic` (`days_overdue = i - 2`). -/
def sampleEntry (now : ℤ) (i : ℕ) (topic : String) : TopicDue :=
  let days_overdue : ℤ := (i : ℤ) - 2
  { topic_name := topic
    retention_probability := max (3/10) (9/10 - (i : ℚ) * (15/100))
    streak := max 1 (5 - (i : ℤ))
    last_review := now - (|days_overdue| + 1)
    next_review := now + days_overdue
    urgency :=
      if days_overdue > 1 then Urgency.critical
      else if days_overdue > 0 then Urgency.high
      else Urgency.medium
    time_overdue_days := max 0 (-days_overdue)
    ease_factor := 5/2
    difficulty := (["easy", "medium", "hard"].getD (i % 3) "easy")
    last_performance := max (4/10) (9/10 - (i : ℚ) * (1/10)) }

/-- The `for i, topic in enumerate(sample_topics)` loop of
`_create_sample_review_data`, starting at index `i`. -/
def sampleEntries (now : ℤ) : ℕ → List String → List TopicDue
  | _, [] => []
  | i, t :: ts => sampleEntry now i t :: sampleEntries now (i + 1) ts

/-- `SpacedRepetitionEngine._create_sample_review_data`: synthesize review
entries from the topics of the user (or the fixed subjects when the user has
none) and return the first three. -/
def create_sample_review_data (now : ℤ) (user_topics : List String) :
    List TopicDue :=
  let sample_topics := if user_topics = [] then sampleSubjects else user_topics
  (sampleEntries now 0 sample_topics).take 3

/-- `SpacedRepetitionEngine.get_topics_due_for_review`: when the user has no
stored spaced-repetition rows the synthesized sample data is returned,
otherwise the due/sorted pipeline runs on the stored rows. -/
def get_topics_due_for_review (now : ℤ) (all_sr_data : List SRRow)
    (user_topics : List String) : List TopicDue :=
  if all_sr_data = [] then create_sample_review_data now user_topics
  else due_topics now all_sr_data

/-! ## IntelligentSpacedRepetition (app/services/intelligent_spaced_repetition.py) -/

/-- One entry of the `performance_history` list consumed by
`IntelligentSpacedRepetition.apply_interval_constraints` (fields accessed
through the score, interval_days and ease_factor keys; the `.get` defaults,
1 and 2.5, are already applied). -/
structure HistEntry where
  score : ℚ
  interval_days : ℚ
  ease_factor : ℚ
deriving DecidableEq

/-- `IntelligentSpacedRepetition.apply_interval_constraints`: adjust the ML
predicted interval by performance and recent history, but override it with
SuperMemo-2 style values for the first few reviews, and clamp to `[1, 365]`
otherwise. -/
def apply_interval_constraints (predicted_interval : ℚ)
    (topic_history : List HistEntry) (performance_score : ℚ) : ℤ :=
  let p1 : ℚ :=
    if performance_score ≥ 90 then predicted_interval * (12/10)
    else if performance_score ≥ 80 then predicted_interval * (11/10)
    else if performance_score ≥ 60 then predicted_interval
    else predicted_interval * (8/10)
  let p2 : ℚ :=
    if topic_history ≠ [] then
      let recent_scores := (topic_history.map HistEntry.score).drop
        ((topic_history.length) - 3)
      let avg_recent := npMean recent_scores
      if avg_recent > 85 then p1 * (11/10)
      else if avg_recent < 60 then p1 * (9/10)
      else p1
    else p1
  if topic_history.length = 0 then 1
  else if topic_history.length = 1 then 6
  else if topic_history.length < 5 then
    match topic_history.getLast? with
    | some h => max 1 (pyInt (h.interval_days * h.ease_factor))
    | none => max 1 (pyInt 0)
  else pyInt (max 1 (min 365 p2))

/-- The row of `spaced_repetition_data` read by
`IntelligentSpacedRepetition.fallback_supermemo2` (the `.get` defaults
`interval_days=1`, `repetitions=0`, `ease_factor=2.5` already applied). -/
structure FallbackPrior where
  interval_days : ℚ
  repetitions : ℤ
  ease_factor : ℚ
deriving DecidableEq

/-- The values computed by `IntelligentSpacedRepetition.fallback_supermemo2`:
the new interval, the new repetition count and the new ease factor (only
`interval_days` and the derived `next_review` are included in the returned
dict; `new_repetitions` and `new_ease_factor` are computed but not
persisted anywhere by this method). -/
structure FallbackResult where
  interval_days : ℤ
  repetitions : ℤ
  ease_factor : ℚ
  confidence : ℚ
deriving DecidableEq

/-- `IntelligentSpacedRepetition.fallback_supermemo2` on a fetched prior row
(`none` models a user/topic pair with no stored data). -/
def fallback_supermemo2 (prior : Option FallbackPrior)
    (performance_score : ℚ) : FallbackResult :=
  match prior with
  | some existing =>
      if performance_score ≥ 60 then
        { interval_days :=
            if existing.repetitions = 0 then 1
            else if existing.repetitions = 1 then 6
            else pyInt (existing.interval_days * existing.ease_factor)
          repetitions := existing.repetitions + 1
          ease_factor := max (13/10) (existing.ease_factor +
            (1/10 - (5 - performance_score/20) *
              (8/100 + (5 - performance_score/20) * (2/100))))
          confidence := 6/10 }
      else
        { interval_days := 1
          repetitions := 0
          ease_factor := max (13/10) (existing.ease_factor - 2/10)
          confidence := 6/10 }
  | none =>
      { interval_days := 1, repetitions := 1, ease_factor := 5/2,
        confidence := 6/10 }

/-! ## StudyPlanGenerator (app/services/study_plan_generator.py) -/

/-- `UserPreferences` dataclass. -/
structure UserPreferences where
  daily_study_time : ℤ
  preferred_session_length : ℤ
  break_duration : ℤ
  peak_hours : List ℤ
  difficulty_preference : String
  learning_style : String
  max_sessions_per_day : ℤ
deriving DecidableEq

/-- `Priority` enum (`LOW=1, MEDIUM=2, HIGH=3, CRITICAL=4`). -/
inductive Priority where
  | low
  | medium
  | high
  | critical
deriving DecidableEq

/-- `Priority.value`. -/
def Priority.val : Priority → ℤ
  | Priority.low => 1
  | Priority.medium => 2
  | Priority.high => 3
  | Priority.critical => 4

/-- `StudySessionType` enum. -/
inductive SessionType where
  | new_content
  | review
  | practice
  | assessment
deriving DecidableEq

/-- The analytics record produced by `_analyze_learning_patterns`.  Only the
fields read by the downstream plan computation are modelled
(`optimal_session_length` by `_calculate_optimal_duration`,
`learning_velocity` and `confidence_score` by `_prioritize_topics` and
`_estimate_completion_probability`); the remaining keys
(`time_performance`, `retention_patterns`, `difficulty_adaptation`) are
never read again.  The generator claims hold for every value of this
record, so it is passed in as an argument. -/
structure LearningAnalytics where
  learning_velocity : ℚ
  confidence_score : ℚ
  optimal_session_length : ℤ
deriving DecidableEq

/-- `_default_learning_analytics` (the value `_analyze_learning_patterns`
returns for a user with no quiz history). -/
def default_learning_analytics : LearningAnalytics :=
  { learning_velocity := 7/10, confidence_score := 1/2,
    optimal_session_length := 25 }

/-- A row of `quiz_results` as read by `_get_topic_performance`
(`.get` defaults applied). -/
structure QuizRow where
  topic_name : String
  score : ℚ
deriving DecidableEq

/-- The python `needle in haystack` substring test on strings. -/
def pyContains (needle hay : String) : Bool :=
  decide (needle.toList <:+: hay.toList)

/-- The ordered `difficulty_map` of `_estimate_topic_difficulty`. -/
def difficultyMap : List (String × ℚ) :=
  [("mathematics", 8/10), ("physics", 9/10), ("chemistry", 8/10),
   ("biology", 6/10), ("history", 5/10), ("literature", 6/10),
   ("computer science", 8/10), ("programming", 8/10)]

/-- `StudyPlanGenerator._estimate_topic_difficulty`: first substring match in
the ordered map, defaulting to `0.6`. -/
def estimate_topic_difficulty (topic : String) : ℚ :=
  match difficultyMap.find? (fun kv => pyContains kv.1 topic.toLower) with
  | some kv => kv.2
  | none => 6/10

/-- `StudyPlanGenerator._get_topic_difficulty`: difficulty score mapped to a
tag. -/
def get_topic_difficulty (topic : String) : String :=
  let s := estimate_topic_difficulty topic
  if s ≥ 7/10 then "hard" else if s ≥ 1/2 then "medium" else "easy"

/-- `StudyPlanGenerator._get_topic_performance`: average quiz score for the
topic scaled to `[0,1]`, defaulting to `0.5` when the user has no quiz
results for it. -/
def get_topic_performance (quiz_results : List QuizRow) (topic : String) : ℚ :=
  let topic_scores := (quiz_results.filter
    (fun r => r.topic_name.toLower = topic.toLower)).map QuizRow.score
  if topic_scores ≠ [] then npMean topic_scores / 100 else 1/2

/-- The priority score `_prioritize_topics` computes for one topic.  Factor 1
(spaced-repetition urgency) is dead code in the source: the fetched
`spaced_rep_data` is a list of row dicts, so the membership test
`topic in spaced_rep_data` (a string against dicts) is always false.
Factor 4 (`_check_prerequisites`) always returns true and adds `0.2`. -/
def topic_priority_score (quiz_results : List QuizRow)
    (analytics : LearningAnalytics) (topic : String) : ℚ :=
  let p0 : ℚ := 0
  let topic_performance := get_topic_performance quiz_results topic
  let p1 := if topic_performance < 7/10
    then p0 + (7/10 - topic_performance) * (1/2) else p0
  let difficulty_gap := |estimate_topic_difficulty topic -
    analytics.confidence_score|
  let p2 := if difficulty_gap < 2/10 then p1 + 3/10 else p1
  p2 + 2/10

/-- `StudyPlanGenerator._prioritize_topics`: score each topic, then sort by
score descending (python `sorted(..., reverse=True)`, a stable sort). -/
def prioritize_topics (quiz_results : List QuizRow)
    (analytics : LearningAnalytics) (topics : List String) :
    List (String × ℚ) :=
  (topics.map (fun t => (t, topic_priority_score quiz_results analytics t))).mergeSort
    (fun a b => decide (b.2 ≤ a.2))

/-- `StudyPlanGenerator._determine_session_type` for a day offset. -/
def determine_session_type (day : ℤ) : SessionType :=
  if day = 0 then SessionType.new_content
  else if day % 3 = 0 then SessionType.review
  else if day % 5 = 0 then SessionType.assessment
  else SessionType.practice

/-- `StudyPlanGenerator._calculate_optimal_duration`: the difficulty lookup
is hard-coded to the medium key, whose multiplier is `1.0`, so the result is
`int(optimal_session_length * 1.0)`. -/
def calculate_optimal_duration (analytics : LearningAnalytics) : ℤ :=
  pyInt ((analytics.optimal_session_length : ℚ) * 1)

/-- `StudyPlanGenerator._convert_to_priority_enum`. -/
def convert_to_priority_enum (priority_score : ℚ) : Priority :=
  if priority_score ≥ 8/10 then Priority.critical
  else if priority_score ≥ 6/10 then Priority.high
  else if priority_score ≥ 4/10 then Priority.medium
  else Priority.low

/-- A `StudyBlock` dataclass instance (`prerequisites` is always `[]` and
`learning_objectives` is the fixed two-element template from
`_get_topic_objectives`). -/
structure StudyBlock where
  topic : String
  session_type : SessionType
  duration_minutes : ℤ
  priority : Priority
  day : ℤ
  difficulty : String
  estimated_effort : ℚ
deriving DecidableEq

/-- The per-day topic loop of `StudyPlanGenerator._generate_study_blocks`:
walk the prioritized topics, stopping once the remaining time is exhausted
or the session cap is reached, skipping sessions shorter than 10 minutes,
and charging `duration + break_duration` against the remaining time. -/
def day_topic_loop (prefs : UserPreferences) (analytics : LearningAnalytics)
    (day : ℤ) : List (String × ℚ) → ℤ → ℤ → List StudyBlock
  | [], _, _ => []
  | (topic, priority) :: rest, remaining_time, session_count =>
    if remaining_time ≤ 0 ∨ session_count ≥ prefs.max_sessions_per_day then []
    else
      let session_duration := min prefs.preferred_session_length
        (min remaining_time (calculate_optimal_duration analytics))
      if session_duration < 10 then
        day_topic_loop prefs analytics day rest remaining_time session_count
      else
        { topic := topic
          session_type := determine_session_type day
          duration_minutes := session_duration
          priority := convert_to_priority_enum priority
          day := day
          difficulty := get_topic_difficulty topic
          estimated_effort := (session_duration : ℚ) / 60 } ::
        day_topic_loop prefs analytics day rest
          (remaining_time - (session_duration + prefs.break_duration))
          (session_count + 1)

/-- The block list of one day in `_generate_study_blocks`: the loop starts with
the full daily budget and a session count of 0. -/
def generate_day_blocks (prefs : UserPreferences)
    (analytics : LearningAnalytics) (prioritized : List (String × ℚ))
    (day : ℤ) : List StudyBlock :=
  day_topic_loop prefs analytics day prioritized prefs.daily_study_time 0

/-- `self.cognitive_load` lookup with default `0.5`. -/
def cognitive_load (difficulty : String) : ℚ :=
  if difficulty = "easy" then 3/10
  else if difficulty = "medium" then 6/10
  else if difficulty = "hard" then 9/10
  else 1/2

/-- `self.efficiency_curves` nested lookup with default `0.7`. -/
def efficiency_curve (style time_of_day : String) : ℚ :=
  if style = "visual" then
    if time_of_day = "morning" then 9/10
    else if time_of_day = "afternoon" then 8/10
    else if time_of_day = "evening" then 7/10 else 7/10
  else if style = "auditory" then
    if time_of_day = "morning" then 8/10
    else if time_of_day = "afternoon" then 9/10
    else if time_of_day = "evening" then 8/10 else 7/10
  else if style = "kinesthetic" then
    if time_of_day = "morning" then 7/10
    else if time_of_day = "afternoon" then 9/10
    else if time_of_day = "evening" then 6/10 else 7/10
  else if style = "reading" then
    if time_of_day = "morning" then 9/10
    else if time_of_day = "afternoon" then 7/10
    else if time_of_day = "evening" then 8/10 else 7/10
  else 7/10

/-- `StudyPlanGenerator._get_time_of_day`. -/
def get_time_of_day (hour : ℤ) : String :=
  if 6 ≤ hour ∧ hour < 12 then "morning"
  else if 12 ≤ hour ∧ hour < 17 then "afternoon"
  else "evening"

/-- Clock times are minutes since midnight of day 0.  `datetime.replace(hour=h)`
keeps the date and the minute and swaps the hour. -/
def replaceHour (t : ℤ) (h : ℤ) : ℤ :=
  (t / 1440) * 1440 + h * 60 + t % 60

/-- The hour of a clock time. -/
def hourOf (t : ℤ) : ℤ :=
  t % 1440 / 60

/-- `StudyPlanGenerator._find_optimal_time_slot`.  The `efficiency_multiplier`
computed from the peak hours in the source is dead code (never read).
High-cognitive-load blocks scheduled at a low-efficiency hour are moved to
the first declared peak hour with a strictly better learning-style
efficiency, when one exists. -/
def find_optimal_time_slot (start_time : ℤ) (block : StudyBlock)
    (prefs : UserPreferences) : ℤ :=
  let hour := hourOf start_time
  let style_efficiency := efficiency_curve prefs.learning_style
    (get_time_of_day hour)
  let load := cognitive_load block.difficulty
  if load > 7/10 ∧ style_efficiency < 8/10 then
    match prefs.peak_hours.find? (fun p =>
        style_efficiency < efficiency_curve prefs.learning_style
          (get_time_of_day p)) with
    | some p => replaceHour start_time p
    | none => start_time
  else start_time

/-- One scheduled session dict of `_optimize_daily_schedule`. -/
structure Session where
  topic : String
  session_type : SessionType
  start_time : ℤ
  duration_minutes : ℤ
  difficulty : String
  priority : Priority
  estimated_effort : ℚ
  break_after : ℤ
deriving DecidableEq

/-- The sequential scheduling loop of `_optimize_daily_schedule`: each block
is placed at its optimal slot and the clock advances by
`duration + break_duration`. -/
def schedule_sessions (prefs : UserPreferences) :
    List StudyBlock → ℤ → List Session
  | [], _ => []
  | block :: rest, current_time =>
    let optimal_time := find_optimal_time_slot current_time block prefs
    { topic := block.topic
      session_type := block.session_type
      start_time := optimal_time
      duration_minutes := block.duration_minutes
      difficulty := block.difficulty
      priority := block.priority
      estimated_effort := block.estimated_effort
      break_after := prefs.break_duration } ::
    schedule_sessions prefs rest
      (optimal_time + block.duration_minutes + prefs.break_duration)

/-- The sort key used by `_optimize_daily_schedule`:
`(-priority.value, cognitive_load(difficulty))`, ascending and stable. -/
def blockLe (a b : StudyBlock) : Bool :=
  decide (b.priority.val < a.priority.val ∨
    (a.priority.val = b.priority.val ∧
      cognitive_load a.difficulty ≤ cognitive_load b.difficulty))

/-- `StudyPlanGenerator._optimize_daily_schedule`: sort the blocks of the day by
priority (descending) then cognitive load (ascending) and assign start
times sequentially from the first declared peak hour. -/
def optimize_daily_schedule (prefs : UserPreferences)
    (blocks : List StudyBlock) : List Session :=
  schedule_sessions prefs (blocks.mergeSort blockLe)
    ((prefs.peak_hours.headD 0) * 60)

/-- `StudyPlanGenerator._generate_study_blocks` together with the grouping
step of `_optimize_schedule`: python builds one flat list, day by day, then regroups it by the `scheduled_time` date key; since
every block carries its day and the days are generated in ascending order,
the grouped dict (in insertion order) is exactly one entry per day that
received at least one block. -/
def blocks_by_day (prefs : UserPreferences) (analytics : LearningAnalytics)
    (prioritized : List (String × ℚ)) (available_days : ℤ) :
    List (ℤ × List StudyBlock) :=
  ((List.range available_days.toNat).map (fun d =>
    ((d : ℤ), generate_day_blocks prefs analytics prioritized (d : ℤ)))).filter
    (fun p => p.2 ≠ [])

/-- `StudyPlanGenerator._optimize_schedule`: optimize the blocks of each day. -/
def optimize_schedule (prefs : UserPreferences)
    (analytics : LearningAnalytics) (prioritized : List (String × ℚ))
    (available_days : ℤ) : List (ℤ × List Session) :=
  (blocks_by_day prefs analytics prioritized available_days).map
    (fun p => (p.1, optimize_daily_schedule prefs p.2))

/-- `StudyPlanGenerator._get_topic_objectives` (fixed template). -/
def get_topic_objectives (topic : String) : List String :=
  ["Master " ++ topic ++ " fundamentals", "Apply " ++ topic ++ " concepts"]

/-- `StudyPlanGenerator._extract_learning_objectives`. -/
def extract_learning_objectives (topics : List String) : List String :=
  topics.flatMap get_topic_objectives

/-- A progress milestone. -/
structure Milestone where
  day : ℤ
  title : String
  target_completion : String
  assessment_recommended : Bool
deriving DecidableEq

/-- `StudyPlanGenerator._generate_milestones`: four milestones spaced
`max(1, days // 4)` days apart (python `//` is floor division). -/
def generate_milestones (days : ℤ) : List Milestone :=
  let milestone_interval := max 1 (Int.fdiv days 4)
  ([0, 1, 2, 3] : List ℤ).map (fun i =>
    { day := (i + 1) * milestone_interval
      title := "Milestone " ++ toString (i + 1)
      target_completion := toString ((i + 1) * 25) ++ "% of topics"
      assessment_recommended := true })

/-- One adaptive adjustment rule. -/
structure AdaptiveRule where
  condition : String
  action : String
  description : String
deriving DecidableEq

/-- `StudyPlanGenerator._generate_adaptive_rules` (a fixed catalog). -/
def generate_adaptive_rules : List AdaptiveRule :=
  [{ condition := "performance_drop_below_70", action := "reduce_difficulty",
     description := "Reduce difficulty if performance drops below 70%" },
   { condition := "streak_above_5_days", action := "increase_challenge",
     description := "Increase challenge after 5-day streak" },
   { condition := "session_incomplete", action := "adjust_duration",
     description := "Adjust session duration if frequently incomplete" }]

/-- The record returned by `_estimate_completion_probability`. -/
structure CompletionEstimate where
  overall : ℚ
  on_time : ℚ
  with_extension : ℚ
  learning_velocity : ℚ
  consistency : ℚ
  time_availability : ℚ
deriving DecidableEq

/-- `StudyPlanGenerator._estimate_completion_probability`. -/
def estimate_completion_probability (prefs : UserPreferences)
    (analytics : LearningAnalytics) : CompletionEstimate :=
  let user_velocity := analytics.learning_velocity
  let consistency_score := analytics.confidence_score
  let time_availability := min 1 ((prefs.daily_study_time : ℚ) / 180)
  let completion_prob := user_velocity * (4/10) + consistency_score * (3/10) +
    time_availability * (3/10)
  { overall := completion_prob
    on_time := completion_prob * (8/10)
    with_extension := min 1 (completion_prob * (12/10))
    learning_velocity := user_velocity
    consistency := consistency_score
    time_availability := time_availability }

/-- The study plan dict assembled by `generate_personalized_study_plan`. -/
structure StudyPlan where
  target_date : ℤ
  total_study_time_minutes : ℤ
  daily_sessions : List (ℤ × List Session)
  learning_objectives : List String
  progress_milestones : List Milestone
  adaptive_adjustments : List AdaptiveRule
  estimated_completion : CompletionEstimate
deriving DecidableEq

/-- `StudyPlanGenerator.generate_personalized_study_plan` as a pure function
of the current day, the requested topics and target date, the preferences
passed by the endpoint, and the collaborator data (quiz rows and the
analytics record).  The method performs no input validation: there is no
code path that rejects a target date in the past, it simply computes
`available_days = (target_date - now).days` and iterates
`range(available_days)` (empty for non-positive values). -/
def generate_personalized_study_plan (now : ℤ) (topics : List String)
    (target_date : ℤ) (prefs : UserPreferences)
    (quiz_results : List QuizRow) (analytics : LearningAnalytics) :
    StudyPlan :=
  let available_days : ℤ := target_date - now
  let total_study_time := available_days * prefs.daily_study_time
  let prioritized := prioritize_topics quiz_results analytics topics
  { target_date := target_date
    total_study_time_minutes := total_study_time
    daily_sessions := optimize_schedule prefs analytics prioritized
      available_days
    learning_objectives := extract_learning_objectives topics
    progress_milestones := generate_milestones available_days
    adaptive_adjustments := generate_adaptive_rules
    estimated_completion := estimate_completion_probability prefs analytics }

/-! ## The memory-decay model of the spec, for comparison with the code -/

/-- Modelled from the spec (section 4.1), for comparison with the
`_calculate_forgetting_probability` of the code: retention is `exp(-t/S)` with memory
strength `S = (repetitions+1) * ease_factor * user_memory_coefficient /
topic_difficulty`, the topic difficulty floored at `0.1`. -/
noncomputable def spec_retention_model (repetitions : ℕ)
    (ease_factor user_memory_coefficient topic_difficulty t : ℝ) : ℝ :=
  Real.exp (-(t / (((repetitions : ℝ) + 1) * ease_factor *
    user_memory_coefficient / max topic_difficulty (1/10))))

/-! ## Theorems -/

/-- C2. The claim states that a first-ever graded review (no prior stored
state) always yields `interval_days = 1` regardless of the score.  Counterexample:
`SpacedRepetitionEngine.calculate_next_review` with no prior state and score
95 on a medium topic returns `interval_days = 4` (the level defaults to 1,
`intervals[1] = 3` for medium, and the excellent-performance multiplier 1.5
gives `int(3 * 1.5) = 4`). -/
theorem c2_counterexample :
    (calculate_next_review 0 none 95 "medium").1.interval_days = 4 ∧
    (calculate_next_review 0 none 95 "medium").1.interval_days ≠ 1 := by
  with_unfolding_all decide

/-- C2 (amended): in `IntelligentSpacedRepetition.apply_interval_constraints`
an empty topic history always yields `interval_days = 1`, for every ML
prediction and every performance score; the basic engine instead returns
`max(1, int(intervals[1] * multiplier))` on a first-ever review. -/
theorem c2_amended (predicted_interval : ℚ) (performance_score : ℚ) :
    apply_interval_constraints predicted_interval [] performance_score = 1 := by
  simp [apply_interval_constraints]

/-- C3. The claim states that a review with exactly one prior review and
score at least 60 always yields `interval_days = 6`.  Counterexample: run a
first review (score 85, medium) through
`SpacedRepetitionEngine.calculate_next_review`, producing a stored state
with `repetitions = 1`; the second review with score 85 then returns
`interval_days = 8` (`intervals[2] = 7` for medium times the 1.2
good-performance multiplier), not 6. -/
theorem c3_counterexample :
    (calculate_next_review 0 none 85 "medium").2.repetitions = 1 ∧
    (calculate_next_review 5
      (some (calculate_next_review 0 none 85 "medium").2) 85
      "medium").1.interval_days = 8 ∧
    (calculate_next_review 5
      (some (calculate_next_review 0 none 85 "medium").2) 85
      "medium").1.interval_days ≠ 6 := by
  with_unfolding_all decide

/-- C3 (amended): in `IntelligentSpacedRepetition.apply_interval_constraints`
a topic history with exactly one entry always yields `interval_days = 6`
(for every score, in particular every score of at least 60); the basic
engine computes a score- and difficulty-dependent value instead. -/
theorem c3_amended (predicted_interval : ℚ) (entry : HistEntry)
    (performance_score : ℚ) :
    apply_interval_constraints predicted_interval [entry] performance_score
      = 6 := by
  simp [apply_interval_constraints]

/-- C1. The claim (and the own attributes `min_ease_factor = 1.3`,
`max_interval = 365` attributes) requires `ease_factor ≥ 1.3` and
`interval_days ∈ [1, 365]` on every path.  Evaluating the code: a review
with score 70 on a prior state whose ease factor is exactly 1.3 returns
ease factor 1.2 (the 60-79 branch subtracts 0.1 with no floor), and a
review with score 95 at the top level of the easy ladder returns interval
547 (`int(365 * 1.5)`, no clamp is applied). -/
theorem c1_theorem :
    (calculate_next_review 0
      (some { interval_days := 1, repetitions := 0, ease_factor := 13/10,
              performance_history := [], last_review := 0, next_review := 0,
              forgetting_probability := 0 }) 70 "medium").1.ease_factor
      = 6/5 ∧
    ((6:ℚ)/5 < 13/10) ∧
    (calculate_next_review 0
      (some { interval_days := 6, repetitions := 6, ease_factor := 5/2,
              performance_history := [], last_review := 0, next_review := 0,
              forgetting_probability := 0 }) 95 "easy").1.interval_days
      = 547 ∧
    (365 : ℤ) < 547 := by
  with_unfolding_all decide

/-- C7. The claim states that a graded review with score below 60 resets the
stored repetition count to 0.  Counterexample: `calculate_next_review` on a
prior state with `repetitions = 2` and score 30 upserts `repetitions = 3`
(line 91 increments unconditionally). -/
theorem c7_counterexample :
    (calculate_next_review 0
      (some { interval_days := 1, repetitions := 2, ease_factor := 5/2,
              performance_history := [70, 70], last_review := 0,
              next_review := 0, forgetting_probability := 0 }) 30
      "medium").2.repetitions = 3 ∧
    (calculate_next_review 0
      (some { interval_days := 1, repetitions := 2, ease_factor := 5/2,
              performance_history := [70, 70], last_review := 0,
              next_review := 0, forgetting_probability := 0 }) 30
      "medium").2.repetitions ≠ 0 := by
  with_unfolding_all decide

/-- C7 (amended): the persisting engine increments the stored repetition
count on every graded review regardless of the score; only the
(non-persisted) SuperMemo-2 fallback computation produces a repetition
count of 0 for scores below 60. -/
theorem c7_amended (now : ℤ) (prior : SRState) (score : ℚ)
    (difficulty : String) (fb : FallbackPrior) :
    (calculate_next_review now (some prior) score difficulty).2.repetitions
      = prior.repetitions + 1 ∧
    (fallback_supermemo2 (some fb) score).repetitions
      = if score ≥ 60 then fb.repetitions + 1 else 0 := by
  constructor
  · simp [calculate_next_review]
  · by_cases h : score ≥ 60 <;> simp [fallback_supermemo2, h]

/-- Closed form of the retention value the code computes, for a positive interval:
`exp(-(t/interval) / (interval * 0.5)) = exp(-2t / interval^2)`. -/
theorem codeRetention_closed_form (t interval : ℤ) (hI : 0 < interval) :
    codeRetention t interval
      = Real.exp (-(2 * (t : ℝ) / ((interval : ℝ)) ^ 2)) := by
  have hIR : (0 : ℝ) < (interval : ℝ) := by exact_mod_cast hI
  have hne : ((interval : ℝ)) ≠ 0 := ne_of_gt hIR
  unfold codeRetention
  rw [if_pos hI, if_pos (by nlinarith : (0:ℝ) < (interval : ℝ) * (1/2))]
  congr 1
  field_simp
  ring

/-- Closed form of the returned forgetting probability for nonnegative
elapsed days and a positive interval (the `max 0` clamp is inactive). -/
theorem codeForgetting_closed_form (t interval : ℤ) (ht : 0 ≤ t)
    (hI : 0 < interval) :
    codeForgetting t interval
      = 1 - Real.exp (-(2 * (t : ℝ) / ((interval : ℝ)) ^ 2)) := by
  have hIR : (0 : ℝ) < (interval : ℝ) := by exact_mod_cast hI
  have htR : (0 : ℝ) ≤ (t : ℝ) := by exact_mod_cast ht
  have harg : -(2 * (t : ℝ) / ((interval : ℝ)) ^ 2) ≤ 0 := by
    have h2 : (0 : ℝ) < ((interval : ℝ)) ^ 2 := by positivity
    have := div_nonneg (by linarith : (0:ℝ) ≤ 2 * (t : ℝ)) h2.le
    linarith
  have hexp : Real.exp (-(2 * (t : ℝ) / ((interval : ℝ)) ^ 2)) ≤ 1 := by
    calc Real.exp (-(2 * (t : ℝ) / ((interval : ℝ)) ^ 2))
        ≤ Real.exp 0 := Real.exp_le_exp.mpr harg
      _ = 1 := Real.exp_zero
  unfold codeForgetting
  rw [codeRetention_closed_form t interval hI, max_eq_right (by linarith)]

/-- C6. The claim asserts the memory-decay computation returns
`retention = exp(-t/S)` with
`S = (repetitions+1) * ease_factor * user_memory_coefficient /
topic_difficulty` (difficulty floored at 0.1).  Counterexample at `t = 1`,
`interval_days = 2`, repetition state `repetitions = 0`,
`ease_factor = 2.5`, `user_memory_coefficient = 1`,
`topic_difficulty = 0.5`: the spec formula gives `exp(-1/5)` while
`_calculate_forgetting_probability` computes retention `exp(-1/2)` (its
strength is `interval * 0.5` and its exponent argument is
`(t/interval)/strength`; none of repetitions, ease factor, memory
coefficient or topic difficulty occur in the code). -/
theorem c6_counterexample :
    codeRetention 1 2 ≠ spec_retention_model 0 (5/2) 1 (1/2) 1 ∧
    codeForgetting 1 2 ≠ 1 - spec_retention_model 0 (5/2) 1 (1/2) 1 := by
  have hcode : codeRetention 1 2 = Real.exp (-(1/2)) := by
    rw [codeRetention_closed_form 1 2 (by decide)]
    norm_num
  have hspec : spec_retention_model 0 (5/2) 1 (1/2) 1 = Real.exp (-(1/5)) := by
    unfold spec_retention_model
    norm_num
  have hne : Real.exp (-(1/2 : ℝ)) ≠ Real.exp (-(1/5 : ℝ)) := by
    intro h
    have := Real.exp_injective h
    norm_num at this
  constructor
  · rw [hcode, hspec]; exact hne
  · have hforg : codeForgetting 1 2 = 1 - Real.exp (-(1/2)) := by
      rw [codeForgetting_closed_form 1 2 (by decide) (by decide)]
      norm_num
    rw [hforg, hspec]
    intro h
    exact hne (by linarith)

/-- C6 (amended): for elapsed days `t ≥ 0` and a positive stored interval,
the memory-decay computation of the code returns retention
`exp(-(t/interval)/(interval*0.5)) = exp(-2t/interval^2)` and forgetting
probability `1 - exp(-2t/interval^2)` (the `max 0` clamp is inactive);
the strength is derived from the interval alone, not from repetitions,
ease factor, a user memory coefficient or topic difficulty. -/
theorem c6_amended (t interval : ℤ) (ht : 0 ≤ t) (hI : 0 < interval) :
    codeRetention t interval
      = Real.exp (-(2 * (t : ℝ) / ((interval : ℝ)) ^ 2)) ∧
    codeForgetting t interval
      = 1 - Real.exp (-(2 * (t : ℝ) / ((interval : ℝ)) ^ 2)) :=
  ⟨codeRetention_closed_form t interval hI,
   codeForgetting_closed_form t interval ht hI⟩

/-- Witness for `c6_amended` at `t = 0`, `interval = 1`. -/
theorem c6_amended_witness :
    codeRetention 0 1 = Real.exp (-(2 * ((0:ℤ) : ℝ) / (((1:ℤ) : ℝ)) ^ 2)) ∧
    codeForgetting 0 1
      = 1 - Real.exp (-(2 * ((0:ℤ) : ℝ) / (((1:ℤ) : ℝ)) ^ 2)) :=
  c6_amended 0 1 (by decide) (by decide)

/-- C9. Holding the interval (and the unused repetitions/ease/difficulty
inputs) fixed, strictly increasing the elapsed days strictly decreases the
computed retention and strictly increases the returned forgetting
probability (whose `max 0` clamp is inactive for nonnegative elapsed
days). -/
theorem c9_theorem (interval t1 t2 : ℤ) (hI : 0 < interval) (h1 : 0 ≤ t1)
    (h12 : t1 < t2) :
    codeRetention t2 interval < codeRetention t1 interval ∧
    codeForgetting t1 interval < codeForgetting t2 interval := by
  have h2 : (0 : ℤ) ≤ t2 := le_trans h1 h12.le
  have hI2 : (0 : ℝ) < ((interval : ℝ)) ^ 2 := by
    have : (0 : ℝ) < (interval : ℝ) := by exact_mod_cast hI
    positivity
  have hlt : (t1 : ℝ) < (t2 : ℝ) := by exact_mod_cast h12
  have harg : -(2 * (t2 : ℝ) / ((interval : ℝ)) ^ 2)
      < -(2 * (t1 : ℝ) / ((interval : ℝ)) ^ 2) := by
    have : 2 * (t1 : ℝ) / ((interval : ℝ)) ^ 2
        < 2 * (t2 : ℝ) / ((interval : ℝ)) ^ 2 := by
      apply div_lt_div_of_pos_right _ hI2
      linarith
    linarith
  have hexp := Real.exp_lt_exp.mpr harg
  rw [codeRetention_closed_form t1 interval hI,
    codeRetention_closed_form t2 interval hI]
  rw [codeForgetting_closed_form t1 interval h1 hI,
    codeForgetting_closed_form t2 interval h2 hI]
  exact ⟨hexp, by linarith⟩

/-- Witness for `c9_theorem` at `interval = 1`, `t1 = 0`, `t2 = 1`. -/
theorem c9_theorem_witness :
    codeRetention 1 1 < codeRetention 0 1 ∧
    codeForgetting 0 1 < codeForgetting 1 1 :=
  c9_theorem 1 0 1 (by decide) (by decide) (by decide)

/-- Row used by the C5 counterexample: forgetting probability 0.45, two days
overdue, so its urgency score is 0.65 (tier high) and its retention is
0.55. -/
def c5RowA : SRRow :=
  { topic_name := "A", next_review := -2, last_review := -4,
    forgetting_probability := 45/100, repetitions := 1, ease_factor := 5/2,
    difficulty := "medium", performance_history := [70] }

/-- Row used by the C5 counterexample: forgetting probability 0.7, due
exactly now, so its urgency score is 0.7 (tier high) and its retention is
0.3. -/
def c5RowB : SRRow :=
  { topic_name := "B", next_review := 0, last_review := -1,
    forgetting_probability := 7/10, repetitions := 1, ease_factor := 5/2,
    difficulty := "medium", performance_history := [70] }

/-- C5. The claim says same-tier topics are ordered by urgency score
descending and then by lower retention probability first.  Counterexample:
with the two rows above (both tier high), the code orders topic `A`
(urgency 0.65, retention 0.55) before topic `B` (urgency 0.7, retention
0.3) even from input order `[B, A]`, because the implemented sort key is
`(tier_rank, -retention_probability)`: within a tier it puts higher
retention first and never consults the urgency score.  The claimed order
would list `B` first on both sub-keys. -/
theorem c5_counterexample :
    (due_topics 0 [c5RowB, c5RowA]).map TopicDue.topic_name = ["A", "B"] ∧
    (due_topics 0 [c5RowB, c5RowA]).map TopicDue.urgency
      = [Urgency.high, Urgency.high] ∧
    (due_topics 0 [c5RowB, c5RowA]).map TopicDue.retention_probability
      = [11/20, 3/10] ∧
    urgency_score 0 c5RowA < urgency_score 0 c5RowB := by
  with_unfolding_all decide

/-- The comparison `dueLe` is transitive. -/
theorem dueLe_trans (a b c : TopicDue) (hab : dueLe a b) (hbc : dueLe b c) :
    dueLe a c := by
  simp only [dueLe, decide_eq_true_eq] at hab hbc ⊢
  rcases hab with h1 | ⟨h1, h1r⟩ <;> rcases hbc with h2 | ⟨h2, h2r⟩
  · exact Or.inl (lt_trans h1 h2)
  · exact Or.inl (h2 ▸ h1)
  · exact Or.inl (h1 ▸ h2)
  · exact Or.inr ⟨h1.trans h2, le_trans h1r h2r⟩

/-- The comparison `dueLe` is total. -/
theorem dueLe_total (a b : TopicDue) : dueLe a b || dueLe b a := by
  simp only [dueLe, Bool.or_eq_true, decide_eq_true_eq]
  rcases Nat.lt_trichotomy (tierRank a.urgency) (tierRank b.urgency) with
    h | h | h
  · exact Or.inl (Or.inl h)
  · rcases le_total (-a.retention_probability) (-b.retention_probability) with
      hr | hr
    · exact Or.inl (Or.inr ⟨h, hr⟩)
    · exact Or.inr (Or.inr ⟨h.symm, hr⟩)
  · exact Or.inr (Or.inl h)

/-- C5 (amended): for every fixed snapshot, the due-topics list is ordered
by urgency tier (critical, high, medium, low) and, within a tier, by
retention probability descending (equivalently forgetting probability
ascending); the urgency score is consulted only for the tier assignment,
and the comparison on each adjacent pair satisfies the stated relation.
Determinism across repeated calls is immediate because `due_topics` is a
pure function of the snapshot. -/
theorem c5_amended (now : ℤ) (rows : List SRRow) :
    (due_topics now rows).Pairwise (fun a b =>
      tierRank a.urgency < tierRank b.urgency ∨
      (tierRank a.urgency = tierRank b.urgency ∧
        b.retention_probability ≤ a.retention_probability)) := by
  have hsorted :=
    List.sorted_mergeSort dueLe_trans dueLe_total
      ((rows.filter (fun row => row.next_review ≤ now)).map (dueEntry now))
  unfold due_topics
  refine hsorted.imp ?_
  intro a b hab
  simp only [dueLe, decide_eq_true_eq] at hab
  rcases hab with h | ⟨h, hr⟩
  · exact Or.inl h
  · exact Or.inr ⟨h, by linarith⟩

/-- The synthesized sample entries carry the input topics, in order. -/
theorem sampleEntries_map_name (now : ℤ) :
    ∀ (i : ℕ) (l : List String),
      (sampleEntries now i l).map TopicDue.topic_name = l := by
  intro i l
  induction l generalizing i with
  | nil => simp [sampleEntries]
  | cons t ts ih => simp [sampleEntries, sampleEntry, ih]

/-- Every synthesized sample entry has retention probability at least 0.3
(the code clamps with `max(0.3, ...)`). -/
theorem sampleEntries_retention (now : ℤ) :
    ∀ (i : ℕ) (l : List String) (x : TopicDue),
      x ∈ sampleEntries now i l → (3:ℚ)/10 ≤ x.retention_probability := by
  intro i l
  induction l generalizing i with
  | nil => intro x hx; simp [sampleEntries] at hx
  | cons t ts ih =>
    intro x hx
    rcases (List.mem_cons).mp hx with h | h
    · subst h
      simp only [sampleEntry]
      exact le_max_left _ _
    · exact ih (i + 1) x h

/-- C10. For a user with no stored spaced-repetition rows,
`get_topics_due_for_review` returns the synthesized sample list: it is
non-empty, has at most 3 entries, its topic names are the first three of
the topics of the user (or of the fixed default subject list when the user has
none), and every entry carries a retention probability of at least 0.3
(together with the urgency tier and next-review fields of its record
type). -/
theorem c10_theorem (now : ℤ) (user_topics : List String) :
    get_topics_due_for_review now [] user_topics ≠ [] ∧
    (get_topics_due_for_review now [] user_topics).length ≤ 3 ∧
    (get_topics_due_for_review now [] user_topics).map TopicDue.topic_name
      = (if user_topics = [] then sampleSubjects else user_topics).take 3 ∧
    (get_topics_due_for_review now [] user_topics).all
      (fun x => decide ((3:ℚ)/10 ≤ x.retention_probability)) = true := by
  have hget : get_topics_due_for_review now [] user_topics
      = (sampleEntries now 0
          (if user_topics = [] then sampleSubjects else user_topics)).take 3 := by
    simp [get_topics_due_for_review, create_sample_review_data]
  have hlen_entries : ∀ (i : ℕ) (l : List String),
      (sampleEntries now i l).length = l.length := by
    intro i l
    have := congrArg List.length (sampleEntries_map_name now i l)
    simpa using this
  refine ⟨?_, ?_, ?_, ?_⟩
  · rw [hget]
    intro hnil
    have hlen := congrArg List.length hnil
    rw [List.length_take, hlen_entries] at hlen
    rcases Decidable.em (user_topics = []) with h | h
    · simp [h, sampleSubjects] at hlen
    · simp [h] at hlen
  · rw [hget, List.length_take]
    omega
  · rw [hget, List.map_take, sampleEntries_map_name now 0 _]
  · rw [hget, List.all_eq_true]
    intro x hx
    have hx' := List.mem_of_mem_take hx
    exact decide_eq_true_eq.mpr (sampleEntries_retention now 0 _ x hx')

/-- Total study-block minutes of a block list. -/
def sumDurations (l : List StudyBlock) : ℤ :=
  (l.map StudyBlock.duration_minutes).sum

/-- Total scheduled minutes of a session list. -/
def sessionMinutes (l : List Session) : ℤ :=
  (l.map Session.duration_minutes).sum

/-- Assigning start times preserves the block durations, in order. -/
theorem schedule_sessions_durations (prefs : UserPreferences) :
    ∀ (bl : List StudyBlock) (cur : ℤ),
      (schedule_sessions prefs bl cur).map Session.duration_minutes
        = bl.map StudyBlock.duration_minutes := by
  intro bl
  induction bl with
  | nil => intro cur; simp [schedule_sessions]
  | cons b rest ih => intro cur; simp [schedule_sessions, ih]

/-- The day-level topic loop keeps the total of charged minutes within the
remaining budget: if it emits at least one block, the emitted durations
plus one break per emitted block stay within the remaining time plus a
single break (the loop may overdraw by at most the final break, which the
feasibility statement does not count). -/
theorem day_topic_loop_budget (prefs : UserPreferences)
    (analytics : LearningAnalytics) (day : ℤ) :
    ∀ (ts : List (String × ℚ)) (rem cnt : ℤ),
      day_topic_loop prefs analytics day ts rem cnt ≠ [] →
      sumDurations (day_topic_loop prefs analytics day ts rem cnt) +
        prefs.break_duration *
          ((day_topic_loop prefs analytics day ts rem cnt).length : ℤ)
        ≤ prefs.break_duration + rem := by
  intro ts
  induction ts with
  | nil => intro rem cnt h; simp [day_topic_loop] at h
  | cons tp rest ih =>
    intro rem cnt h
    obtain ⟨topic, priority⟩ := tp
    by_cases hstop : rem ≤ 0 ∨ cnt ≥ prefs.max_sessions_per_day
    · rw [day_topic_loop, if_pos hstop] at h
      exact absurd rfl h
    · have hrem : min prefs.preferred_session_length
          (min rem (calculate_optimal_duration analytics)) ≤ rem :=
        le_trans (min_le_right _ _) (min_le_left _ _)
      by_cases hshort : min prefs.preferred_session_length
          (min rem (calculate_optimal_duration analytics)) < 10
      · rw [day_topic_loop, if_neg hstop, if_pos hshort] at h ⊢
        exact ih rem cnt h
      · rw [day_topic_loop, if_neg hstop, if_neg hshort] at h ⊢
        by_cases hL : day_topic_loop prefs analytics day rest
            (rem - (min prefs.preferred_session_length
              (min rem (calculate_optimal_duration analytics)) +
              prefs.break_duration)) (cnt + 1) = []
        · rw [hL]
          simp only [sumDurations, List.map_cons, List.map_nil, List.sum_cons,
            List.sum_nil, List.length_cons, List.length_nil]
          push_cast
          linarith [hrem]
        · have hrec := ih _ _ hL
          simp only [sumDurations, List.map_cons, List.sum_cons,
            List.length_cons] at *
          push_cast at *
          linarith [hrec]

/-- C4. For every generated study plan and every scheduled day in it, the
sum of the session durations of the day plus the inter-block breaks (one
break between consecutive blocks) fits in the daily study-time budget.
Stated over the full generator, for every input. -/
theorem c4_theorem (now : ℤ) (topics : List String) (target_date : ℤ)
    (prefs : UserPreferences) (quiz_results : List QuizRow)
    (analytics : LearningAnalytics) :
    ((generate_personalized_study_plan now topics target_date prefs
        quiz_results analytics).daily_sessions).all
      (fun p => decide (sessionMinutes p.2 +
        prefs.break_duration * ((p.2.length : ℤ) - 1)
        ≤ prefs.daily_study_time)) = true := by
  rw [List.all_eq_true]
  intro p hp
  rw [decide_eq_true_eq]
  simp only [generate_personalized_study_plan, optimize_schedule,
    blocks_by_day, List.mem_map, List.mem_filter, List.mem_range] at hp
  obtain ⟨q, ⟨⟨d0, hd0, hq⟩, hne⟩, hpq⟩ := hp
  subst hq
  simp only [decide_eq_true_eq] at hne
  subst hpq
  set blocks := generate_day_blocks prefs analytics
    (prioritize_topics quiz_results analytics topics) (d0 : ℤ) with hblocks
  have hperm : List.Perm
      ((blocks.mergeSort blockLe).map StudyBlock.duration_minutes)
      (blocks.map StudyBlock.duration_minutes) :=
    (List.mergeSort_perm blocks blockLe).map _
  have hsum : sessionMinutes (optimize_daily_schedule prefs blocks)
      = sumDurations blocks := by
    unfold sessionMinutes optimize_daily_schedule
    rw [schedule_sessions_durations]
    exact hperm.sum_eq
  have hlen : (optimize_daily_schedule prefs blocks).length
      = blocks.length := by
    unfold optimize_daily_schedule
    have := congrArg List.length
      (schedule_sessions_durations prefs (blocks.mergeSort blockLe)
        ((prefs.peak_hours.headD 0) * 60))
    simpa using this
  have hblocks_ne : blocks ≠ [] := hne
  have hbudget := day_topic_loop_budget prefs analytics (d0 : ℤ)
    (prioritize_topics quiz_results analytics topics)
    prefs.daily_study_time 0 hblocks_ne
  have hlen_pos : 1 ≤ blocks.length := by
    cases hb : blocks with
    | nil => exact absurd hb hblocks_ne
    | cons x xs => simp [hb]
  rw [hsum, hlen]
  have : sumDurations blocks +
      prefs.break_duration * (blocks.length : ℤ)
      ≤ prefs.break_duration + prefs.daily_study_time := hbudget
  have hcast : (1 : ℤ) ≤ (blocks.length : ℤ) := by exact_mod_cast hlen_pos
  nlinarith [this]

/-- The preferences the `/generate-study-plan` endpoint constructs from a
request with default optional fields. -/
def endpointPrefs : UserPreferences :=
  { daily_study_time := 120, preferred_session_length := 25,
    break_duration := 5, peak_hours := [9, 10, 11, 14, 15, 16],
    difficulty_preference := "medium", learning_style := "visual",
    max_sessions_per_day := 6 }

/-- C8. The claim says a plan request whose target date is in the past is
rejected immediately with a ValidationError and never silently coerced.
Counterexample: neither `generate_personalized_study_plan` nor the
endpoint contains any target-date validation (no ValidationError exists in
the code); for a target 5 days in the past the generator silently returns
a normal plan whose daily schedule is empty and whose advertised total
study time is the negative value `-5 * 120 = -600` minutes. -/
theorem c8_counterexample :
    (generate_personalized_study_plan 0 ["Algebra"] (-5) endpointPrefs []
      default_learning_analytics).daily_sessions = [] ∧
    (generate_personalized_study_plan 0 ["Algebra"] (-5) endpointPrefs []
      default_learning_analytics).total_study_time_minutes = -600 := by
  with_unfolding_all decide

/-- C8 (amended): a plan-generation request whose target date is not after
`now` is not rejected; the generator always returns a plan, with an empty
per-day schedule and a total study time of
`(target_date - now) * daily_study_time` (non-positive for past dates). -/
theorem c8_amended (now target_date : ℤ) (topics : List String)
    (prefs : UserPreferences) (quiz_results : List QuizRow)
    (analytics : LearningAnalytics) (hpast : target_date ≤ now) :
    (generate_personalized_study_plan now topics target_date prefs
      quiz_results analytics).daily_sessions = [] ∧
    (generate_personalized_study_plan now topics target_date prefs
      quiz_results analytics).total_study_time_minutes
      = (target_date - now) * prefs.daily_study_time := by
  constructor
  · have hn : (target_date - now).toNat = 0 := by omega
    simp [generate_personalized_study_plan, optimize_schedule,
      blocks_by_day, hn]
  · rfl

/-- Witness for `c8_amended` at a target date five days in the past. -/
theorem c8_amended_witness :
    (generate_personalized_study_plan 0 ["Algebra"] (-5) endpointPrefs []
      default_learning_analytics).daily_sessions = [] ∧
    (generate_personalized_study_plan 0 ["Algebra"] (-5) endpointPrefs []
      default_learning_analytics).total_study_time_minutes
      = ((-5 : ℤ) - 0) * endpointPrefs.daily_study_time :=
  c8_amended 0 (-5) ["Algebra"] endpointPrefs [] default_learning_analytics
    (by decide)
